import Mathlib

/-!
Shallow embedding of the order state machine and notification bridge of the
`catalog` Django app (`catalog/models.py`, `catalog/views.py`), together with
theorems settling the specification claims about it.
-/

namespace Catalog

/-- Order status values, from `Order.STATUS_CHOICES` in `catalog/models.py`. -/
inductive Status
  | awaiting_payment
  | new
  | accepted
  | in_progress
  | delivered
  | cancelled
  deriving DecidableEq, Repr

/-- A catalog product, from `class Watch` in `catalog/models.py` (the fields the
claims mention: primary key, name, live integer price). -/
structure Watch where
  id : Nat
  name : String
  price : Int
  deriving DecidableEq, Repr

/-- A line item, from `class OrderItem` in `catalog/models.py`: a foreign key to a
`Watch`, a positive-integer quantity and the decimal `price` snapshot captured at
order creation. The owning order is modelled by inlining items into `Order.items`. -/
structure OrderItem where
  watch : Nat
  quantity : Nat
  price : Rat
  deriving DecidableEq, Repr

/-- An order, from `class Order` in `catalog/models.py`. `user` is the nullable
foreign key (by id), `payment_screenshot` the nullable image reference (by name),
`items` the reverse relation `order.items`. -/
structure Order where
  id : Nat
  user : Option Nat
  created_at : Nat
  location : String
  latitude : Option Rat
  longitude : Option Rat
  phone : String
  status : Status
  payment_screenshot : Option String
  admin_comment : String
  uzum_payment_id : String
  items : List OrderItem
  deriving DecidableEq, Repr

/-- Translation of the property `OrderItem.total_price` (`catalog/models.py`):
`self.price * self.quantity`. -/
def OrderItem.total_price (it : OrderItem) : Rat :=
  it.price * it.quantity

/-- Translation of the property `Order.total_amount` (`catalog/models.py`):
`sum(item.total_price for item in self.items.all())`, recomputed on access. -/
def Order.total_amount (o : Order) : Rat :=
  (o.items.map OrderItem.total_price).sum

/-- The database, as far as the claims need it: the watch table and the order table
(line items are inlined into orders, see `Order.items`). -/
structure Store where
  watches : List Watch
  orders : List Order
  deriving DecidableEq, Repr

/-- Changing the live catalog price of one watch (an admin edit of `Watch.price`);
order rows and their item snapshots are untouched, as in the schema. -/
def Store.updateWatchPrice (st : Store) (wid : Nat) (p : Int) : Store :=
  { st with watches := st.watches.map (fun w => if w.id = wid then { w with price := p } else w) }

/-- Reading `total_amount` of the order with id `oid` out of the store. -/
def Store.orderTotal (st : Store) (oid : Nat) : Option Rat :=
  (st.orders.find? (fun o => decide (o.id = oid))).map Order.total_amount

/-- Decimal digit characters of `n`, most significant first.  Models Python's
`str` on a nonnegative integer, as used by the f-strings of `catalog/views.py`
(for example `f"accept:{order.id}"`). -/
def decChars (n : Nat) : List Char :=
  if _h : n < 10 then
    [Char.ofNat (48 + n)]
  else
    decChars (n / 10) ++ [Char.ofNat (48 + n % 10)]
termination_by n
decreasing_by
  exact Nat.div_lt_self (by omega) (by omega)

/-- Python `str(n)` for a nonnegative integer `n`. -/
def natStr (n : Nat) : String :=
  String.mk (decChars n)

/-- Value of a big-endian list of decimal digit characters. -/
def digitsVal (cs : List Char) : Nat :=
  cs.foldl (fun n c => n * 10 + (c.toNat - 48)) 0

/-- The ASCII whitespace characters Python `int` strips from both ends of its
string argument. -/
def isPySpace (c : Char) : Bool :=
  decide (c = ' ' ∨ c = '\t' ∨ c = '\n' ∨ c = '\r' ∨ c = '\x0b' ∨ c = '\x0c')

/-- Strip leading and trailing Python whitespace. -/
def stripPySpace (cs : List Char) : List Char :=
  ((cs.dropWhile isPySpace).reverse.dropWhile isPySpace).reverse

/-- No two consecutive underscores (Python `int` rejects `1__0`). -/
def noDoubleUnderscore : List Char → Bool
  | [] => true
  | [_] => true
  | a :: b :: rest => !(decide (a = '_') && decide (b = '_')) && noDoubleUnderscore (b :: rest)

/-- Digit groups separated by single underscores, as Python `int` accepts after
the optional sign: nonempty, no underscore at either end, no two consecutive
underscores, and every non-underscore character an ASCII digit. -/
def parsePyDigits (cs : List Char) : Option Nat :=
  if cs ≠ [] ∧ cs.head? ≠ some '_' ∧ cs.getLast? ≠ some '_'
      ∧ noDoubleUnderscore cs = true
      ∧ (cs.filter (fun c => c != '_')).all Char.isDigit = true then
    some (digitsVal (cs.filter (fun c => c != '_')))
  else none

/-- Models Python `int(s)` over the ASCII alphabet (`none` when `int` would
raise `ValueError`): surrounding whitespace is stripped, an optional sign is
followed by digit groups that may be separated by single underscores.
Non-ASCII forms `int` also accepts (Unicode decimal digits and Unicode spaces)
are outside the modelled alphabet, so theorems about the raising behaviour are
stated only for id parts containing an ASCII letter, where `int` certainly
raises.  This is what Django runs on the id part of the token at
`Order.objects.filter(id=order_id)` in `telegram_webhook`: a non-integer string
raises, anything else is looked up numerically. -/
def pyInt? (s : String) : Option Int :=
  match stripPySpace s.data with
  | [] => none
  | c :: rest =>
    if c = '-' then (parsePyDigits rest).map (fun n : Nat => -(n : Int))
    else if c = '+' then (parsePyDigits rest).map (fun n : Nat => (n : Int))
    else (parsePyDigits (c :: rest)).map (fun n : Nat => (n : Int))

/-- Does the string contain an ASCII letter?  Python `int` raises `ValueError`
on every such string, whatever else it contains. -/
def hasAsciiLetter (s : String) : Bool :=
  s.data.any Char.isAlpha

/-- Models `data.split(":", 1)` from `telegram_webhook`: the part before the first
`:` and everything after it (only reached when `":" in data`). -/
def splitToken (s : String) : String × String :=
  let a := s.data.takeWhile (fun c => c != ':')
  (String.mk a, String.mk (s.data.drop (a.length + 1)))

/-- An inline keyboard button (`text` and `callback_data`), as in the dicts built
by `build_keyboard` in `catalog/views.py`. -/
structure Button where
  text : String
  callback_data : String
  deriving DecidableEq, Repr

/-- Translation of `build_keyboard` from `catalog/views.py`. -/
def build_keyboard (o : Order) : List (List Button) :=
  if o.status = .new then
    [[{ text := "✅ Подтвердить оплату", callback_data := "accept:" ++ natStr o.id },
      { text := "❌ Отклонить оплату", callback_data := "cancel:" ++ natStr o.id }]]
  else if o.status = .accepted then
    [[{ text := "🚚 В пути", callback_data := "way:" ++ natStr o.id }]]
  else if o.status = .in_progress then
    [[{ text := "📦 Доставлен", callback_data := "deliver:" ++ natStr o.id }]]
  else
    []

/-- The callback-query part of an inbound Telegram update, as read by
`telegram_webhook`: `cb.get("id")`, `cb.get("data", "")` and the chat/message ids
of the message the buttons were attached to. -/
structure CallbackQuery where
  id : Option String
  data : String
  chat_id : Option Int
  message_id : Option Int
  deriving DecidableEq, Repr

/-- An inbound webhook POST body, abstracted to how `telegram_webhook` reads
it.  Only `json.loads` is inside the view's `try`; every later access is
unguarded, so valid-JSON bodies of the wrong shape crash the view:

* `badJson` — a body `json.loads` rejects (caught, acknowledged);
* `badShape` — valid JSON whose attribute access raises before the
  `answerCallbackQuery` call: a non-dict update (`update.get`), a truthy
  non-dict `callback_query` (`cb.get`), or a non-dict `message`/`chat`
  (`msg.get(...).get`), all of which run before the ack (lines 431–439);
* `badData (cbId)` — a dict callback whose `data` value is a truthy non-string
  on which the `":" not in data` test (line 445) or the `data.split` call
  raises, after the ack and before any lookup;
* `noCallback` — a dict update whose `callback_query` is absent or falsy;
* `callback cb` — a well-shaped callback query with string `data`. -/
inductive Inbound
  | badJson
  | badShape
  | badData (cbId : Option String)
  | noCallback
  | callback (cb : CallbackQuery)
  deriving DecidableEq, Repr

/-- The HTTP outcome of the webhook view: `JsonResponse({"ok": True})`, or an
unhandled exception (Django then returns a 500 error page). -/
inductive HttpResponse
  | okTrue
  | serverError
  deriving DecidableEq, Repr

/-- One outbound effect performed by the webhook view, in program order:
`answerCallbackQuery`, the customer notification `sendMessage` issued by
`_notify_client_if_possible`, the durable `order.save()`, and the
`editMessageCaption` / `editMessageText` calls. -/
inductive Event
  | answerCallback (cbId : String)
  | clientSend (chatId : Int) (text : String)
  | save (o : Order)
  | editCaption (chatId msgId : Option Int) (kb : List (List Button))
  | editText (chatId msgId : Option Int) (kb : List (List Button))
  deriving DecidableEq, Repr

/-- Ambient configuration and external-API behaviour: whether
`TELEGRAM_BOT_TOKEN`/`TELEGRAM_CHAT_ID` are set, whether `editMessageCaption`
reports `ok`, the resolved customer chat id (profile field or
`TEST_CLIENT_CHAT_ID`), whether the photo branch of
`send_telegram_order_notification` raises a Python exception, and the API-level
outcome of `sendPhoto` (whose result the source never inspects). -/
structure Env where
  configured : Bool
  editCaptionOk : Bool
  clientChatId : Option Int
  photoBranchRaises : Bool
  sendPhotoApiOk : Bool
  deriving DecidableEq, Repr

/-- Result of one webhook request: the updated order table, the HTTP response and
the ordered list of performed effects. -/
structure WebhookResult where
  orders : List Order
  response : HttpResponse
  events : List Event
  deriving DecidableEq, Repr

/-- `Order.objects.filter(id=oid).first()` for an integer `oid`. -/
def findOrder (orders : List Order) (oid : Int) : Option Order :=
  orders.find? (fun o => decide ((o.id : Int) = oid))

/-- `order.save()`: replace the row with the same primary key. -/
def saveOrder (orders : List Order) (o : Order) : List Order :=
  orders.map (fun x => if x.id = o.id then o else x)

/-- Translation of the `if action == ... and order.status == ...` chain of
`telegram_webhook` (lines 457–485 of `catalog/views.py`).  Returns the mutated
in-memory order, the `status_text` for the message edit and the customer
notification text; `none` is the final `else` (no transition). -/
def applyAction (action : String) (o : Order) : Option (Order × String × String) :=
  if action = "cancel" ∧ o.status = .new then
    some ({ o with
              status := .cancelled,
              admin_comment := (if o.admin_comment = "" then "Оплата отклонена" else o.admin_comment) },
          "❌ <b>Статус:</b> Оплата отклонена / Отменён",
          "❌ Оплата по заказу №" ++ natStr o.id ++ " отклонена. Свяжитесь с продавцом.")
  else if action = "accept" ∧ o.status = .new then
    some ({ o with
              status := .accepted,
              admin_comment := (if o.admin_comment = "" then "Оплата подтверждена" else o.admin_comment) },
          "✅ <b>Статус:</b> Оплата подтверждена",
          "✅ Оплата по заказу №" ++ natStr o.id ++ " подтверждена. Спасибо!")
  else if action = "way" ∧ o.status = .accepted then
    some ({ o with status := .in_progress },
          "🚚 <b>Статус:</b> В пути",
          "🚚 Заказ №" ++ natStr o.id ++ " в пути.")
  else if action = "deliver" ∧ o.status = .in_progress then
    some ({ o with status := .delivered },
          "📦 <b>Статус:</b> Доставлен",
          "📦 Заказ №" ++ natStr o.id ++ " доставлен.")
  else
    none

/-- Translation of `_notify_client_if_possible`: nothing without an owning user,
a single `sendMessage` when a client chat id is known. -/
def notify_client_if_possible (env : Env) (o : Order) (text : String) : List Event :=
  match o.user with
  | none => []
  | some _ =>
    match env.clientChatId with
    | some cid => [Event.clientSend cid text]
    | none => []

/-- The `answerCallbackQuery` call guarded by `if cb_id:` (Python truthiness:
absent or empty id means no call). -/
def ackOf (i : Option String) : List Event :=
  match i with
  | some cbId => if cbId = "" then [] else [Event.answerCallback cbId]
  | none => []

/-- The acknowledgment events of a callback query. -/
def ackEvents (cb : CallbackQuery) : List Event :=
  ackOf cb.id

/-- The `editMessageCaption` call and, when it does not report `ok`, the
`editMessageText` fallback, both carrying the re-rendered keyboard
(`catalog/views.py` lines 512–530). -/
def editCalls (env : Env) (cb : CallbackQuery) (o' : Order) : List Event :=
  if env.editCaptionOk then
    [Event.editCaption cb.chat_id cb.message_id (build_keyboard o')]
  else
    [Event.editCaption cb.chat_id cb.message_id (build_keyboard o'),
     Event.editText cb.chat_id cb.message_id (build_keyboard o')]

/-- The callback branch of `telegram_webhook` (`catalog/views.py` lines 435–532),
translated clause by clause. -/
def handleCallback (env : Env) (cb : CallbackQuery) (orders : List Order) : WebhookResult :=
  if cb.data = "" ∨ ':' ∉ cb.data.data then
    { orders := orders, response := .okTrue, events := ackEvents cb }
  else
    match pyInt? (splitToken cb.data).2 with
    | none => { orders := orders, response := .serverError, events := ackEvents cb }
    | some oid =>
      match findOrder orders oid with
      | none => { orders := orders, response := .okTrue, events := ackEvents cb }
      | some order =>
        if order.status = .cancelled ∨ order.status = .delivered then
          { orders := orders, response := .okTrue, events := ackEvents cb }
        else
          match applyAction (splitToken cb.data).1 order with
          | none => { orders := orders, response := .okTrue, events := ackEvents cb }
          | some (o', _statusText, clientMsg) =>
            { orders := saveOrder orders o',
              response := .okTrue,
              events := ackEvents cb
                ++ notify_client_if_possible env o' clientMsg
                ++ [Event.save o']
                ++ editCalls env cb o' }

/-- Translation of the `telegram_webhook` view: malformed JSON and non-callback
updates get `{"ok": true}` untouched; wrong-shaped bodies raise out of the view
(only `json.loads` is guarded) — before the ack for `badShape`, after it for
`badData`; otherwise the callback branch runs. -/
def telegram_webhook (env : Env) (inb : Inbound) (orders : List Order) : WebhookResult :=
  match inb with
  | .badJson => { orders := orders, response := .okTrue, events := [] }
  | .badShape => { orders := orders, response := .serverError, events := [] }
  | .badData i => { orders := orders, response := .serverError, events := ackOf i }
  | .noCallback => { orders := orders, response := .okTrue, events := [] }
  | .callback cb => handleCallback env cb orders

/-- One outbound call made by `send_telegram_order_notification`: `sendPhoto`
with caption and reply markup, the follow-up full-text `sendMessage` without
reply markup, or the bottom `sendMessage` carrying the reply markup. -/
inductive NotifCall
  | sendPhoto (kb : List (List Button))
  | sendMessageNoKb
  | sendMessageKb (kb : List (List Button))
  deriving DecidableEq, Repr

/-- Translation of `send_telegram_order_notification` (`catalog/views.py` lines
213–297): nothing when unconfigured; with a screenshot, `sendPhoto` (keyboard
attached) then a plain full-text `sendMessage` — the `sendPhoto` API result is
never inspected — falling through to the bottom keyboard-bearing `sendMessage`
only when the `try` block raises; without a screenshot, the bottom
keyboard-bearing `sendMessage`. -/
def send_telegram_order_notification (env : Env) (o : Order) : List NotifCall :=
  if env.configured = false then
    []
  else if o.payment_screenshot.isSome then
    if env.photoBranchRaises then
      [.sendMessageKb (build_keyboard o)]
    else
      [.sendPhoto (build_keyboard o), .sendMessageNoKb]
  else
    [.sendMessageKb (build_keyboard o)]

/-- Outcome of a POST to `payment_page`, one constructor per exit of the view. -/
inductive PaymentOutcome
  | notFound
  | pastStage
  | alreadyUploaded
  | noFile
  | uploaded
  deriving DecidableEq, Repr

/-- Translation of the POST path of `payment_page` (`catalog/views.py` lines
375–416): owner-scoped lookup, the advanced-status guard, the duplicate-receipt
guard, the missing-file guard, then store the screenshot, set status `new`, save
and notify. -/
def payment_page_post (env : Env) (orders : List Order) (userId : Nat) (orderId : Nat)
    (file : Option String) : List Order × PaymentOutcome × List NotifCall :=
  match orders.find? (fun o => decide (o.id = orderId ∧ o.user = some userId)) with
  | none => (orders, .notFound, [])
  | some order =>
    if order.status = .accepted ∨ order.status = .in_progress ∨ order.status = .delivered
        ∨ order.status = .cancelled then
      (orders, .pastStage, [])
    else if order.payment_screenshot.isSome then
      (orders, .alreadyUploaded, [])
    else
      match file with
      | none => (orders, .noFile, [])
      | some f =>
        let o' := { order with payment_screenshot := some f, status := Status.new }
        (saveOrder orders o', .uploaded, send_telegram_order_notification env o')

/-- Recogniser for the durable write event. -/
def isSave : Event → Bool
  | .save _ => true
  | _ => false

/-- Recogniser for the customer-notification send. -/
def isClientSend : Event → Bool
  | .clientSend _ _ => true
  | _ => false

/-- Recogniser for the message-edit calls. -/
def isEdit : Event → Bool
  | .editCaption _ _ _ => true
  | .editText _ _ _ => true
  | _ => false

/-- Scan: no message edit and no customer send occurs before the first durable
write (vacuously true when neither occurs). -/
def outboundAfterSave : List Event → Bool
  | [] => true
  | e :: rest =>
    if isSave e then true
    else if isEdit e || isClientSend e then false
    else outboundAfterSave rest

/-- Scan: no message edit occurs before the first durable write. -/
def editsAfterSave : List Event → Bool
  | [] => true
  | e :: rest =>
    if isSave e then true
    else if isEdit e then false
    else editsAfterSave rest

/-- Scan: no customer send occurs after the first durable write. -/
def noClientSendAfterSave : List Event → Bool
  | [] => true
  | e :: rest =>
    if isSave e then rest.all (fun x => !isClientSend x)
    else noClientSendAfterSave rest

/-- Recogniser for the keyboard-bearing text send of the operator notification. -/
def isKbSend : NotifCall → Bool
  | .sendMessageKb _ => true
  | _ => false

/-- Recogniser for the photo send of the operator notification. -/
def isPhotoSend : NotifCall → Bool
  | .sendPhoto _ => true
  | _ => false

/-- A sample order used by concrete witnesses: receipt uploaded, under review,
two line items priced 10 × 2 and 5 × 1. -/
def sampleOrder : Order :=
  { id := 7, user := some 5, created_at := 0, location := "Tashkent",
    latitude := some 41, longitude := some 69, phone := "+998", status := .new,
    payment_screenshot := some "shot.png", admin_comment := "", uzum_payment_id := "",
    items := [{ watch := 1, quantity := 2, price := 10 }, { watch := 2, quantity := 1, price := 5 }] }

/-- The sample order before the receipt upload. -/
def sampleAwaiting : Order :=
  { sampleOrder with status := .awaiting_payment, payment_screenshot := none }

/-- The sample order after delivery (terminal). -/
def sampleDelivered : Order :=
  { sampleOrder with status := .delivered }

/-- A fully configured environment in which the customer chat id is known,
`editMessageCaption` succeeds, the photo branch does not raise, and the
`sendPhoto` call fails at the API level. -/
def sampleEnv : Env :=
  { configured := true, editCaptionOk := true, clientChatId := some 777,
    photoBranchRaises := false, sendPhotoApiOk := false }

/-- A callback query as Telegram delivers it for the approve button of the
sample order. -/
def sampleCb : CallbackQuery :=
  { id := some "cbid", data := "accept:7", chat_id := some 1, message_id := some 2 }

/-- The approve button as rendered for the sample order. -/
def approveButton : Button :=
  { text := "✅ Подтвердить оплату", callback_data := "accept:" ++ natStr sampleOrder.id }

/-- The reject button as rendered for the sample order. -/
def rejectButton : Button :=
  { text := "❌ Отклонить оплату", callback_data := "cancel:" ++ natStr sampleOrder.id }

/-- The sample order with a non-empty operator comment already present. -/
def noteOrder : Order :=
  { sampleOrder with admin_comment := "Проверить адрес" }

/-- The in-memory mutation the accept branch performs on `noteOrder`. -/
def noteOrderAccepted : Order :=
  { noteOrder with
      status := .accepted,
      admin_comment := (if noteOrder.admin_comment = "" then "Оплата подтверждена"
        else noteOrder.admin_comment) }

/-! ### Helper lemmas: decimal rendering and parsing round-trip -/

theorem char_ofNat_digit_toNat {d : Nat} (h : d < 10) : (Char.ofNat (48 + d)).toNat = 48 + d := by
  interval_cases d <;> decide

theorem char_ofNat_digit_isDigit {d : Nat} (h : d < 10) : (Char.ofNat (48 + d)).isDigit = true := by
  interval_cases d <;> decide

theorem decChars_ne_nil (n : Nat) : decChars n ≠ [] := by
  rw [decChars]
  split
  · simp
  · simp

theorem decChars_isDigit (n : Nat) : ∀ c ∈ decChars n, c.isDigit = true := by
  induction n using Nat.strong_induction_on with
  | _ n ih =>
    rw [decChars]
    split
    · rename_i h
      intro c hc
      rw [List.mem_singleton] at hc
      subst hc
      exact char_ofNat_digit_isDigit h
    · rename_i h
      intro c hc
      rcases List.mem_append.mp hc with h1 | h1
      · exact ih (n / 10) (Nat.div_lt_self (by omega) (by omega)) c h1
      · rw [List.mem_singleton] at h1
        subst h1
        exact char_ofNat_digit_isDigit (Nat.mod_lt _ (by omega))

theorem digitsVal_append (l : List Char) (c : Char) :
    digitsVal (l ++ [c]) = digitsVal l * 10 + (c.toNat - 48) := by
  simp [digitsVal, List.foldl_append]

theorem digitsVal_decChars (n : Nat) : digitsVal (decChars n) = n := by
  induction n using Nat.strong_induction_on with
  | _ n ih =>
    rw [decChars]
    split
    · rename_i h
      simp [digitsVal, char_ofNat_digit_toNat h]
    · rename_i h
      rw [digitsVal_append, ih (n / 10) (Nat.div_lt_self (by omega) (by omega)),
        char_ofNat_digit_toNat (Nat.mod_lt _ (by omega))]
      omega

theorem not_space_of_digit {c : Char} (h : c.isDigit = true) : isPySpace c = false := by
  unfold isPySpace
  rw [decide_eq_false_iff_not]
  rintro (rfl | rfl | rfl | rfl | rfl | rfl) <;> exact absurd h (by decide)

theorem ne_underscore_of_digit {c : Char} (h : c.isDigit = true) : ¬ c = '_' := by
  rintro rfl
  exact absurd h (by decide)

theorem not_digit_of_alpha {c : Char} (h : c.isAlpha = true) : c.isDigit = false := by
  have hv : ¬ c.val ≤ 57 := by
    unfold Char.isAlpha Char.isUpper Char.isLower at h
    rw [Bool.or_eq_true, Bool.and_eq_true, Bool.and_eq_true] at h
    rcases h with ⟨h1, -⟩ | ⟨h1, -⟩
    · intro hc
      have h1' : (65 : Nat) ≤ c.val.toNat := of_decide_eq_true h1
      have hc' : c.val.toNat ≤ (57 : Nat) := hc
      omega
    · intro hc
      have h1' : (97 : Nat) ≤ c.val.toNat := of_decide_eq_true h1
      have hc' : c.val.toNat ≤ (57 : Nat) := hc
      omega
  unfold Char.isDigit
  rw [decide_eq_false hv, Bool.and_false]

theorem not_space_of_alpha {c : Char} (h : c.isAlpha = true) : isPySpace c = false := by
  unfold isPySpace
  rw [decide_eq_false_iff_not]
  rintro (rfl | rfl | rfl | rfl | rfl | rfl) <;> exact absurd h (by decide)

theorem ne_underscore_of_alpha {c : Char} (h : c.isAlpha = true) : ¬ c = '_' := by
  rintro rfl
  exact absurd h (by decide)

theorem dropWhile_eq_self_of_none (p : Char → Bool) (l : List Char)
    (h : ∀ c ∈ l, p c = false) : l.dropWhile p = l := by
  cases l with
  | nil => rfl
  | cons a t => simp [List.dropWhile_cons, h a (List.mem_cons_self a t)]

theorem stripPySpace_of_no_space (l : List Char) (h : ∀ c ∈ l, isPySpace c = false) :
    stripPySpace l = l := by
  unfold stripPySpace
  rw [dropWhile_eq_self_of_none _ _ h,
    dropWhile_eq_self_of_none _ _ (fun c hc => h c (List.mem_reverse.mp hc)),
    List.reverse_reverse]

theorem mem_dropWhile_of_neg (p : Char → Bool) {c : Char} :
    ∀ (l : List Char), c ∈ l → p c = false → c ∈ l.dropWhile p := by
  intro l
  induction l with
  | nil =>
    intro hm _
    cases hm
  | cons a t ih =>
    intro hm hc
    by_cases hpa : p a = true
    · rw [List.dropWhile_cons, if_pos hpa]
      rcases List.mem_cons.mp hm with rfl | hmt
      · rw [hpa] at hc
        cases hc
      · exact ih hmt hc
    · rw [List.dropWhile_cons, if_neg hpa]
      exact hm

theorem mem_stripPySpace {c : Char} (l : List Char) (hc : c ∈ l) (hs : isPySpace c = false) :
    c ∈ stripPySpace l := by
  unfold stripPySpace
  rw [List.mem_reverse]
  exact mem_dropWhile_of_neg _ _ (List.mem_reverse.mpr (mem_dropWhile_of_neg _ _ hc hs)) hs

theorem noDoubleUnderscore_of_no_underscore :
    ∀ (l : List Char), (∀ c ∈ l, ¬ c = '_') → noDoubleUnderscore l = true := by
  intro l
  induction l with
  | nil => intro _; rfl
  | cons a t ih =>
    intro h
    cases t with
    | nil => rfl
    | cons b r =>
      have ha : ¬ a = '_' := h a (List.mem_cons_self a (b :: r))
      simp [noDoubleUnderscore, ha, ih (fun c hc => h c (List.mem_cons_of_mem a hc))]

theorem parsePyDigits_decChars (n : Nat) : parsePyDigits (decChars n) = some n := by
  have hd := decChars_isDigit n
  have hfil : (decChars n).filter (fun c => c != '_') = decChars n :=
    List.filter_eq_self.mpr (fun c hc => by simpa using ne_underscore_of_digit (hd c hc))
  have hcond : decChars n ≠ [] ∧ (decChars n).head? ≠ some '_'
      ∧ (decChars n).getLast? ≠ some '_' ∧ noDoubleUnderscore (decChars n) = true
      ∧ (decChars n).all Char.isDigit = true := by
    refine ⟨decChars_ne_nil n, ?_, ?_, ?_, ?_⟩
    · intro hh
      obtain ⟨c, rest, hcr⟩ := List.exists_cons_of_ne_nil (decChars_ne_nil n)
      rw [hcr, List.head?_cons, Option.some.injEq] at hh
      exact ne_underscore_of_digit (hd c (by rw [hcr]; exact List.mem_cons_self c rest)) hh
    · intro hl
      have hm : '_' ∈ decChars n := List.mem_of_mem_getLast? (Option.mem_def.mpr hl)
      exact absurd (hd '_' hm) (by decide)
    · exact noDoubleUnderscore_of_no_underscore _ (fun c hc => ne_underscore_of_digit (hd c hc))
    · rw [List.all_eq_true]
      exact fun c hc => hd c hc
  rw [parsePyDigits, hfil, if_pos hcond, digitsVal_decChars]

theorem pyInt_strip_cons (s : String) (c : Char) (rest : List Char)
    (hs : stripPySpace s.data = c :: rest) (h1 : ¬ c = '-') (h2 : ¬ c = '+') :
    pyInt? s = (parsePyDigits (c :: rest)).map (fun m : Nat => (m : Int)) := by
  simp only [pyInt?, hs, if_neg h1, if_neg h2]

theorem pyInt_natStr (n : Nat) : pyInt? (natStr n) = some (n : Int) := by
  obtain ⟨c, rest, h⟩ := List.exists_cons_of_ne_nil (decChars_ne_nil n)
  have hd : c.isDigit = true := decChars_isDigit n c (by rw [h]; exact List.mem_cons_self c rest)
  have h1 : ¬ c = '-' := by rintro rfl; exact absurd hd (by decide)
  have h2 : ¬ c = '+' := by rintro rfl; exact absurd hd (by decide)
  have hs : stripPySpace (natStr n).data = c :: rest := by
    rw [show (natStr n).data = decChars n from rfl,
      stripPySpace_of_no_space _ (fun x hx => not_space_of_digit (decChars_isDigit n x hx)), h]
  rw [pyInt_strip_cons (natStr n) c rest hs h1 h2, ← h, parsePyDigits_decChars]
  rfl

theorem pyInt_none_of_letter (s : String) (h : hasAsciiLetter s = true) : pyInt? s = none := by
  obtain ⟨c, hcm, hca⟩ := List.any_eq_true.mp h
  have hcs : c ∈ stripPySpace s.data := mem_stripPySpace _ hcm (not_space_of_alpha hca)
  have hnone : ∀ l : List Char, c ∈ l → parsePyDigits l = none := by
    intro l hcl
    rw [parsePyDigits, if_neg]
    rintro ⟨-, -, -, -, hall⟩
    have hcf : c ∈ l.filter (fun x => x != '_') :=
      List.mem_filter.mpr ⟨hcl, by simpa using ne_underscore_of_alpha hca⟩
    have hdg := List.all_eq_true.mp hall c hcf
    rw [not_digit_of_alpha hca] at hdg
    cases hdg
  cases hs : stripPySpace s.data with
  | nil =>
    rw [hs] at hcs
    cases hcs
  | cons c0 rest =>
    rw [hs] at hcs
    by_cases h1 : c0 = '-'
    · have hcr : c ∈ rest := by
        rcases List.mem_cons.mp hcs with rfl | hm
        · rw [h1] at hca
          exact absurd hca (by decide)
        · exact hm
      simp only [pyInt?, hs, if_pos h1, hnone rest hcr, Option.map_none']
    · by_cases h2 : c0 = '+'
      · have hcr : c ∈ rest := by
          rcases List.mem_cons.mp hcs with rfl | hm
          · rw [h2] at hca
            exact absurd hca (by decide)
          · exact hm
        simp only [pyInt?, hs, if_neg h1, if_pos h2, hnone rest hcr, Option.map_none']
      · simp only [pyInt?, hs, if_neg h1, if_neg h2, hnone (c0 :: rest) hcs, Option.map_none']

/-! ### Helper lemmas: token splitting -/

theorem takeWhile_middle (p : Char → Bool) :
    ∀ (l₁ : List Char) (c : Char) (l₂ : List Char),
      (∀ x ∈ l₁, p x = true) → p c = false →
      (l₁ ++ c :: l₂).takeWhile p = l₁ := by
  intro l₁
  induction l₁ with
  | nil =>
    intro c l₂ _ hc
    simp [List.takeWhile_cons, hc]
  | cons a t ih =>
    intro c l₂ hall hc
    have ha : p a = true := hall a (List.mem_cons_self a t)
    simp [List.cons_append, List.takeWhile_cons, ha,
      ih c l₂ (fun x hx => hall x (List.mem_cons_of_mem a hx)) hc]

theorem drop_middle : ∀ (l₁ : List Char) (c : Char) (l₂ : List Char),
    (l₁ ++ c :: l₂).drop (l₁.length + 1) = l₂ := by
  intro l₁
  induction l₁ with
  | nil => intro c l₂; rfl
  | cons a t ih => intro c l₂; simp only [List.cons_append, List.length_cons]; exact ih c l₂

theorem splitToken_data (a r : String) (h : ∀ x ∈ a.data, ¬ x = ':') :
    splitToken (String.mk (a.data ++ ':' :: r.data)) = (a, r) := by
  have hb : ∀ x ∈ a.data, (x != ':') = true := by
    intro x hx
    simpa using h x hx
  simp only [splitToken]
  rw [takeWhile_middle _ a.data ':' r.data hb (by decide), drop_middle]

/-! ### Helper lemmas: order table -/

theorem mem_of_findOrder {orders : List Order} {oid : Int} {o : Order}
    (h : findOrder orders oid = some o) : o ∈ orders :=
  List.mem_of_find?_eq_some h

theorem findOrder_mem_nodup :
    ∀ (orders : List Order), (orders.map Order.id).Nodup → ∀ o ∈ orders,
      findOrder orders (o.id : Int) = some o := by
  intro orders
  induction orders with
  | nil =>
    intro _ o ho
    cases ho
  | cons x t ih =>
    intro hnd o ho
    rw [List.map_cons, List.nodup_cons] at hnd
    rcases List.mem_cons.mp ho with rfl | ho'
    · rw [findOrder, List.find?_cons_of_pos t (by simp)]
    · have hx : ¬ ((x.id : Int) = (o.id : Int)) := by
        intro he
        have hids : x.id = o.id := by exact_mod_cast he
        exact hnd.1 (hids ▸ List.mem_map_of_mem Order.id ho')
      rw [findOrder, List.find?_cons_of_neg t (by simpa using hx)]
      exact ih hnd.2 o ho'

theorem mem_saveOrder {orders : List Order} {u o' : Order}
    (h : o' ∈ saveOrder orders u) : o' ∈ orders ∨ o' = u := by
  rcases List.mem_map.mp h with ⟨x, hx, he⟩
  by_cases hid : x.id = u.id
  · right
    rw [← he, if_pos hid]
  · left
    rw [← he, if_neg hid]
    exact hx

/-! ### Helper lemmas: webhook branch equations -/

theorem guard_false {cb : CallbackQuery} (h : ':' ∈ cb.data.data) :
    ¬ (cb.data = "" ∨ ':' ∉ cb.data.data) := by
  rintro (he | hn)
  · rw [he] at h
    cases h
  · exact hn h

theorem handleCallback_guard (env : Env) (cb : CallbackQuery) (orders : List Order)
    (h : cb.data = "" ∨ ':' ∉ cb.data.data) :
    handleCallback env cb orders = ⟨orders, .okTrue, ackEvents cb⟩ := by
  rw [handleCallback, if_pos h]

theorem handleCallback_badInt (env : Env) (cb : CallbackQuery) (orders : List Order)
    (h1 : ':' ∈ cb.data.data) (h2 : pyInt? (splitToken cb.data).2 = none) :
    handleCallback env cb orders = ⟨orders, .serverError, ackEvents cb⟩ := by
  simp only [handleCallback, if_neg (guard_false h1), h2]

theorem handleCallback_notFound (env : Env) (cb : CallbackQuery) (orders : List Order)
    (oid : Int) (h1 : ':' ∈ cb.data.data) (h2 : pyInt? (splitToken cb.data).2 = some oid)
    (h3 : findOrder orders oid = none) :
    handleCallback env cb orders = ⟨orders, .okTrue, ackEvents cb⟩ := by
  simp only [handleCallback, if_neg (guard_false h1), h2, h3]

theorem handleCallback_terminal (env : Env) (cb : CallbackQuery) (orders : List Order)
    (oid : Int) (o : Order) (h1 : ':' ∈ cb.data.data)
    (h2 : pyInt? (splitToken cb.data).2 = some oid) (h3 : findOrder orders oid = some o)
    (h4 : o.status = .cancelled ∨ o.status = .delivered) :
    handleCallback env cb orders = ⟨orders, .okTrue, ackEvents cb⟩ := by
  simp only [handleCallback, if_neg (guard_false h1), h2, h3, if_pos h4]

theorem handleCallback_reject (env : Env) (cb : CallbackQuery) (orders : List Order)
    (oid : Int) (o : Order) (h1 : ':' ∈ cb.data.data)
    (h2 : pyInt? (splitToken cb.data).2 = some oid) (h3 : findOrder orders oid = some o)
    (h4 : ¬ (o.status = .cancelled ∨ o.status = .delivered))
    (h5 : applyAction (splitToken cb.data).1 o = none) :
    handleCallback env cb orders = ⟨orders, .okTrue, ackEvents cb⟩ := by
  simp only [handleCallback, if_neg (guard_false h1), h2, h3, if_neg h4, h5]

theorem handleCallback_success (env : Env) (cb : CallbackQuery) (orders : List Order)
    (oid : Int) (o o' : Order) (st cm : String) (h1 : ':' ∈ cb.data.data)
    (h2 : pyInt? (splitToken cb.data).2 = some oid) (h3 : findOrder orders oid = some o)
    (h4 : ¬ (o.status = .cancelled ∨ o.status = .delivered))
    (h5 : applyAction (splitToken cb.data).1 o = some (o', st, cm)) :
    handleCallback env cb orders =
      { orders := saveOrder orders o', response := .okTrue,
        events := ackEvents cb ++ notify_client_if_possible env o' cm
          ++ [Event.save o'] ++ editCalls env cb o' } := by
  simp only [handleCallback, if_neg (guard_false h1), h2, h3, if_neg h4, h5]

theorem handleCallback_shape (env : Env) (cb : CallbackQuery) (orders : List Order) :
    (∃ resp, handleCallback env cb orders = ⟨orders, resp, ackEvents cb⟩) ∨
    (∃ o, o ∈ orders ∧ ∃ o' st cm,
      applyAction (splitToken cb.data).1 o = some (o', st, cm) ∧
      ¬ (o.status = .cancelled ∨ o.status = .delivered) ∧
      handleCallback env cb orders =
        { orders := saveOrder orders o', response := .okTrue,
          events := ackEvents cb ++ notify_client_if_possible env o' cm
            ++ [Event.save o'] ++ editCalls env cb o' }) := by
  by_cases hg : cb.data = "" ∨ ':' ∉ cb.data.data
  · exact Or.inl ⟨.okTrue, handleCallback_guard env cb orders hg⟩
  · have h1 : ':' ∈ cb.data.data := not_not.mp (not_or.mp hg).2
    cases h2 : pyInt? (splitToken cb.data).2 with
    | none => exact Or.inl ⟨.serverError, handleCallback_badInt env cb orders h1 h2⟩
    | some oid =>
      cases h3 : findOrder orders oid with
      | none => exact Or.inl ⟨.okTrue, handleCallback_notFound env cb orders oid h1 h2 h3⟩
      | some o =>
        by_cases h4 : o.status = .cancelled ∨ o.status = .delivered
        · exact Or.inl ⟨.okTrue, handleCallback_terminal env cb orders oid o h1 h2 h3 h4⟩
        · cases h5 : applyAction (splitToken cb.data).1 o with
          | none => exact Or.inl ⟨.okTrue, handleCallback_reject env cb orders oid o h1 h2 h3 h4 h5⟩
          | some r =>
            obtain ⟨o', st, cm⟩ := r
            exact Or.inr ⟨o, mem_of_findOrder h3, o', st, cm, h5, h4,
              handleCallback_success env cb orders oid o o' st cm h1 h2 h3 h4 h5⟩

theorem webhook_orders_shape (env : Env) (inb : Inbound) (orders : List Order) :
    (telegram_webhook env inb orders).orders = orders ∨
    ∃ o, o ∈ orders ∧ ∃ a o' st cm, applyAction a o = some (o', st, cm) ∧
      (telegram_webhook env inb orders).orders = saveOrder orders o' := by
  cases inb with
  | badJson => exact Or.inl rfl
  | badShape => exact Or.inl rfl
  | badData i => exact Or.inl rfl
  | noCallback => exact Or.inl rfl
  | callback cb =>
    rcases handleCallback_shape env cb orders with ⟨resp, heq⟩ | ⟨o, ho, o', st, cm, h5, _, heq⟩
    · exact Or.inl (by rw [show telegram_webhook env (.callback cb) orders
        = handleCallback env cb orders from rfl, heq])
    · refine Or.inr ⟨o, ho, (splitToken cb.data).1, o', st, cm, h5, ?_⟩
      rw [show telegram_webhook env (.callback cb) orders = handleCallback env cb orders from rfl,
        heq]

/-! ### Helper lemmas: event-order scans -/

theorem editsAfterSave_append (l₁ l₂ : List Event)
    (h : ∀ e ∈ l₁, isSave e = false ∧ isEdit e = false) :
    editsAfterSave (l₁ ++ l₂) = editsAfterSave l₂ := by
  induction l₁ with
  | nil => rfl
  | cons a t ih =>
    obtain ⟨hs, he⟩ := h a (List.mem_cons_self a t)
    simp [editsAfterSave, hs, he, ih (fun e hm => h e (List.mem_cons_of_mem a hm))]

theorem noClientSendAfterSave_append (l₁ l₂ : List Event)
    (h : ∀ e ∈ l₁, isSave e = false) :
    noClientSendAfterSave (l₁ ++ l₂) = noClientSendAfterSave l₂ := by
  induction l₁ with
  | nil => rfl
  | cons a t ih =>
    have hs := h a (List.mem_cons_self a t)
    simp [noClientSendAfterSave, hs, ih (fun e hm => h e (List.mem_cons_of_mem a hm))]

theorem ackOf_flags (i : Option String) :
    ∀ e ∈ ackOf i, isSave e = false ∧ isEdit e = false ∧ isClientSend e = false := by
  intro e he
  unfold ackOf at he
  split at he
  · split at he
    · cases he
    · rw [List.mem_singleton] at he
      subst he
      exact ⟨rfl, rfl, rfl⟩
  · cases he

theorem ackEvents_flags (cb : CallbackQuery) :
    ∀ e ∈ ackEvents cb, isSave e = false ∧ isEdit e = false ∧ isClientSend e = false :=
  fun e he => ackOf_flags cb.id e he

theorem notify_flags (env : Env) (o : Order) (text : String) :
    ∀ e ∈ notify_client_if_possible env o text,
      isSave e = false ∧ isEdit e = false := by
  intro e he
  unfold notify_client_if_possible at he
  split at he
  · cases he
  · split at he
    · rw [List.mem_singleton] at he
      subst he
      exact ⟨rfl, rfl⟩
    · cases he

theorem editCalls_not_client (env : Env) (cb : CallbackQuery) (o' : Order) :
    ∀ e ∈ editCalls env cb o', isClientSend e = false := by
  intro e he
  unfold editCalls at he
  split at he
  · rw [List.mem_singleton] at he
    subst he
    rfl
  · rcases List.mem_cons.mp he with rfl | he'
    · rfl
    · rw [List.mem_singleton] at he'
      subst he'
      rfl

/-! ### Helper lemmas: the transition chain -/

theorem applyAction_edges {a : String} {o o' : Order} {st cm : String}
    (h : applyAction a o = some (o', st, cm)) :
    (a = "cancel" ∧ o.status = .new ∧ o'.status = .cancelled) ∨
    (a = "accept" ∧ o.status = .new ∧ o'.status = .accepted) ∨
    (a = "way" ∧ o.status = .accepted ∧ o'.status = .in_progress) ∨
    (a = "deliver" ∧ o.status = .in_progress ∧ o'.status = .delivered) := by
  unfold applyAction at h
  by_cases h1 : a = "cancel" ∧ o.status = .new
  · rw [if_pos h1, Option.some.injEq, Prod.mk.injEq] at h
    exact Or.inl ⟨h1.1, h1.2, by rw [← h.1]⟩
  · rw [if_neg h1] at h
    by_cases h2 : a = "accept" ∧ o.status = .new
    · rw [if_pos h2, Option.some.injEq, Prod.mk.injEq] at h
      exact Or.inr (Or.inl ⟨h2.1, h2.2, by rw [← h.1]⟩)
    · rw [if_neg h2] at h
      by_cases h3 : a = "way" ∧ o.status = .accepted
      · rw [if_pos h3, Option.some.injEq, Prod.mk.injEq] at h
        exact Or.inr (Or.inr (Or.inl ⟨h3.1, h3.2, by rw [← h.1]⟩))
      · rw [if_neg h3] at h
        by_cases h4 : a = "deliver" ∧ o.status = .in_progress
        · rw [if_pos h4, Option.some.injEq, Prod.mk.injEq] at h
          exact Or.inr (Or.inr (Or.inr ⟨h4.1, h4.2, by rw [← h.1]⟩))
        · rw [if_neg h4] at h
          cases h

theorem applyAction_frame {a : String} {o o' : Order} {st cm : String}
    (h : applyAction a o = some (o', st, cm)) :
    o'.id = o.id ∧ o'.user = o.user ∧ o'.created_at = o.created_at ∧
    o'.location = o.location ∧ o'.latitude = o.latitude ∧ o'.longitude = o.longitude ∧
    o'.phone = o.phone ∧ o'.payment_screenshot = o.payment_screenshot ∧
    o'.uzum_payment_id = o.uzum_payment_id ∧ o'.items = o.items ∧
    (¬ o.admin_comment = "" → o'.admin_comment = o.admin_comment) := by
  unfold applyAction at h
  by_cases h1 : a = "cancel" ∧ o.status = .new
  · rw [if_pos h1, Option.some.injEq, Prod.mk.injEq] at h
    rw [← h.1]
    exact ⟨rfl, rfl, rfl, rfl, rfl, rfl, rfl, rfl, rfl, rfl, fun hne => by simp only [if_neg hne]⟩
  · rw [if_neg h1] at h
    by_cases h2 : a = "accept" ∧ o.status = .new
    · rw [if_pos h2, Option.some.injEq, Prod.mk.injEq] at h
      rw [← h.1]
      exact ⟨rfl, rfl, rfl, rfl, rfl, rfl, rfl, rfl, rfl, rfl, fun hne => by simp only [if_neg hne]⟩
    · rw [if_neg h2] at h
      by_cases h3 : a = "way" ∧ o.status = .accepted
      · rw [if_pos h3, Option.some.injEq, Prod.mk.injEq] at h
        rw [← h.1]
        exact ⟨rfl, rfl, rfl, rfl, rfl, rfl, rfl, rfl, rfl, rfl, fun _ => rfl⟩
      · rw [if_neg h3] at h
        by_cases h4 : a = "deliver" ∧ o.status = .in_progress
        · rw [if_pos h4, Option.some.injEq, Prod.mk.injEq] at h
          rw [← h.1]
          exact ⟨rfl, rfl, rfl, rfl, rfl, rfl, rfl, rfl, rfl, rfl, fun _ => rfl⟩
        · rw [if_neg h4] at h
          cases h

theorem applyAction_cancel (o : Order) (h : o.status = .new) :
    applyAction "cancel" o =
      some ({ o with
                status := .cancelled,
                admin_comment := (if o.admin_comment = "" then "Оплата отклонена"
                  else o.admin_comment) },
            "❌ <b>Статус:</b> Оплата отклонена / Отменён",
            "❌ Оплата по заказу №" ++ natStr o.id ++ " отклонена. Свяжитесь с продавцом.") := by
  unfold applyAction
  rw [if_pos ⟨rfl, h⟩]

theorem applyAction_accept (o : Order) (h : o.status = .new) :
    applyAction "accept" o =
      some ({ o with
                status := .accepted,
                admin_comment := (if o.admin_comment = "" then "Оплата подтверждена"
                  else o.admin_comment) },
            "✅ <b>Статус:</b> Оплата подтверждена",
            "✅ Оплата по заказу №" ++ natStr o.id ++ " подтверждена. Спасибо!") := by
  unfold applyAction
  rw [if_neg (by rintro ⟨hc, -⟩; exact absurd hc (by decide)), if_pos ⟨rfl, h⟩]

theorem applyAction_way (o : Order) (h : o.status = .accepted) :
    applyAction "way" o =
      some ({ o with status := .in_progress },
            "🚚 <b>Статус:</b> В пути",
            "🚚 Заказ №" ++ natStr o.id ++ " в пути.") := by
  unfold applyAction
  rw [if_neg (by rintro ⟨hc, -⟩; exact absurd hc (by decide)),
    if_neg (by rintro ⟨hc, -⟩; exact absurd hc (by decide)), if_pos ⟨rfl, h⟩]

theorem applyAction_deliver (o : Order) (h : o.status = .in_progress) :
    applyAction "deliver" o =
      some ({ o with status := .delivered },
            "📦 <b>Статус:</b> Доставлен",
            "📦 Заказ №" ++ natStr o.id ++ " доставлен.") := by
  unfold applyAction
  rw [if_neg (by rintro ⟨hc, -⟩; exact absurd hc (by decide)),
    if_neg (by rintro ⟨hc, -⟩; exact absurd hc (by decide)),
    if_neg (by rintro ⟨hc, -⟩; exact absurd hc (by decide)), if_pos ⟨rfl, h⟩]

theorem applyAction_isSome_iff (a : String) (o : Order) :
    (∃ r, applyAction a o = some r) ↔
      ((a = "cancel" ∧ o.status = .new) ∨ (a = "accept" ∧ o.status = .new) ∨
       (a = "way" ∧ o.status = .accepted) ∨ (a = "deliver" ∧ o.status = .in_progress)) := by
  constructor
  · rintro ⟨⟨o', st, cm⟩, h⟩
    rcases applyAction_edges h with ⟨h1, h2, -⟩ | ⟨h1, h2, -⟩ | ⟨h1, h2, -⟩ | ⟨h1, h2, -⟩
    · exact Or.inl ⟨h1, h2⟩
    · exact Or.inr (Or.inl ⟨h1, h2⟩)
    · exact Or.inr (Or.inr (Or.inl ⟨h1, h2⟩))
    · exact Or.inr (Or.inr (Or.inr ⟨h1, h2⟩))
  · rintro (⟨rfl, hs⟩ | ⟨rfl, hs⟩ | ⟨rfl, hs⟩ | ⟨rfl, hs⟩)
    · exact ⟨_, applyAction_cancel o hs⟩
    · exact ⟨_, applyAction_accept o hs⟩
    · exact ⟨_, applyAction_way o hs⟩
    · exact ⟨_, applyAction_deliver o hs⟩

/-! ### Helper lemmas: rendered tokens parse back -/

theorem splitToken_eq_of_data (s a r : String) (hd : s.data = a.data ++ ':' :: r.data)
    (h : ∀ x ∈ a.data, ¬ x = ':') : splitToken s = (a, r) := by
  have hs : s = String.mk (a.data ++ ':' :: r.data) := by
    cases s
    cases hd
    rfl
  rw [hs]
  exact splitToken_data a r h

theorem token_data (pre r : String) :
    (pre ++ ":" ++ r).data = pre.data ++ ':' :: r.data := by
  show (pre.data ++ ":".data) ++ r.data = _
  rw [List.append_assoc]
  rfl

theorem splitToken_token (pre r : String) (h : ∀ x ∈ pre.data, ¬ x = ':') :
    splitToken (pre ++ ":" ++ r) = (pre, r) :=
  splitToken_eq_of_data _ pre r (token_data pre r) h

theorem colon_mem_token (pre r : String) : ':' ∈ (pre ++ ":" ++ r).data := by
  rw [token_data]
  exact List.mem_append_right _ (List.mem_cons_self _ _)

/-- End-to-end: a button press whose token is `pre ++ ":" ++ str(o.id)` against a
store with unique ids runs the full success path when `applyAction` accepts. -/
theorem webhook_button_press (env : Env) (orders : List Order) (i : Option String)
    (ch m : Option Int) (o o' : Order) (pre st cm : String)
    (hnd : (orders.map Order.id).Nodup) (ho : o ∈ orders)
    (hterm : ¬ (o.status = .cancelled ∨ o.status = .delivered))
    (hp : ∀ x ∈ pre.data, ¬ x = ':')
    (happ : applyAction pre o = some (o', st, cm)) :
    telegram_webhook env
        (.callback { id := i, data := pre ++ ":" ++ natStr o.id, chat_id := ch, message_id := m })
        orders =
      { orders := saveOrder orders o', response := .okTrue,
        events :=
          ackEvents { id := i, data := pre ++ ":" ++ natStr o.id, chat_id := ch, message_id := m }
            ++ notify_client_if_possible env o' cm ++ [Event.save o']
            ++ editCalls env
                { id := i, data := pre ++ ":" ++ natStr o.id, chat_id := ch, message_id := m }
                o' } := by
  have hsplit : splitToken (pre ++ ":" ++ natStr o.id) = (pre, natStr o.id) :=
    splitToken_token pre (natStr o.id) hp
  have h1 : ':' ∈ (pre ++ ":" ++ natStr o.id).data := colon_mem_token pre (natStr o.id)
  have h2 : pyInt? (splitToken (pre ++ ":" ++ natStr o.id)).2 = some (o.id : Int) := by
    rw [hsplit]
    exact pyInt_natStr o.id
  have h5 : applyAction (splitToken (pre ++ ":" ++ natStr o.id)).1 o = some (o', st, cm) := by
    rw [hsplit]
    exact happ
  exact handleCallback_success env _ orders (o.id : Int) o o' st cm h1 h2
    (findOrder_mem_nodup orders hnd o ho) hterm h5

/-! ### Helper lemmas: more scans and the error characterisation -/

theorem webhook_callback (env : Env) (cb : CallbackQuery) (orders : List Order) :
    telegram_webhook env (.callback cb) orders = handleCallback env cb orders := rfl

theorem editsAfterSave_of_none (l : List Event)
    (h : ∀ e ∈ l, isSave e = false ∧ isEdit e = false) : editsAfterSave l = true := by
  induction l with
  | nil => rfl
  | cons a t ih =>
    obtain ⟨hs, he⟩ := h a (List.mem_cons_self a t)
    simp [editsAfterSave, hs, he, ih (fun e hm => h e (List.mem_cons_of_mem a hm))]

theorem noClientSendAfterSave_of_noSave (l : List Event)
    (h : ∀ e ∈ l, isSave e = false) : noClientSendAfterSave l = true := by
  induction l with
  | nil => rfl
  | cons a t ih =>
    have hs := h a (List.mem_cons_self a t)
    simp [noClientSendAfterSave, hs, ih (fun e hm => h e (List.mem_cons_of_mem a hm))]

theorem webhook_error_no_mutation (env : Env) (inb : Inbound) (orders : List Order)
    (h : (telegram_webhook env inb orders).response = .serverError) :
    (telegram_webhook env inb orders).orders = orders := by
  cases inb with
  | badJson => rfl
  | badShape => rfl
  | badData i => rfl
  | noCallback => rfl
  | callback cb =>
    rw [webhook_callback] at h ⊢
    rcases handleCallback_shape env cb orders with ⟨resp, heq⟩ | ⟨o, -, o', st, cm, -, -, heq⟩
    · rw [heq]
    · rw [heq] at h
      exact HttpResponse.noConfusion h

theorem status_not_past (s : Status)
    (h : ¬ (s = .accepted ∨ s = .in_progress ∨ s = .delivered ∨ s = .cancelled)) :
    s = .awaiting_payment ∨ s = .new := by
  cases s
  · exact Or.inl rfl
  · exact Or.inr rfl
  · exact absurd (by decide) h
  · exact absurd (by decide) h
  · exact absurd (by decide) h
  · exact absurd (by decide) h

/-! ### Claim C1 -/

/-- C1: the webhook changes an order's status exactly along the legal edges —
from `new` the approve button (code literal `accept`) yields `accepted`, from
`new` the reject button (`cancel`) yields `cancelled`, from `accepted` the ship
button (`way`) yields `in_progress`, from `in_progress` the deliver button
(`deliver`) yields `delivered` — and no webhook-driven change of the stored
orders produces any other (old status, new status) pair. -/
theorem webhook_transitions_exactly_legal_edges :
    (∀ (a : String) (o o' : Order) (st cm : String),
      applyAction a o = some (o', st, cm) →
        (a = "accept" ∧ o.status = .new ∧ o'.status = .accepted) ∨
        (a = "cancel" ∧ o.status = .new ∧ o'.status = .cancelled) ∨
        (a = "way" ∧ o.status = .accepted ∧ o'.status = .in_progress) ∨
        (a = "deliver" ∧ o.status = .in_progress ∧ o'.status = .delivered)) ∧
    (∀ (env : Env) (orders : List Order) (i : Option String) (ch m : Option Int) (o : Order),
      (orders.map Order.id).Nodup → o ∈ orders → o.status = .new →
      ∃ o', (telegram_webhook env
          (.callback { id := i, data := "accept" ++ ":" ++ natStr o.id,
                       chat_id := ch, message_id := m }) orders).orders
          = saveOrder orders o' ∧ o'.id = o.id ∧ o'.status = .accepted) ∧
    (∀ (env : Env) (orders : List Order) (i : Option String) (ch m : Option Int) (o : Order),
      (orders.map Order.id).Nodup → o ∈ orders → o.status = .new →
      ∃ o', (telegram_webhook env
          (.callback { id := i, data := "cancel" ++ ":" ++ natStr o.id,
                       chat_id := ch, message_id := m }) orders).orders
          = saveOrder orders o' ∧ o'.id = o.id ∧ o'.status = .cancelled) ∧
    (∀ (env : Env) (orders : List Order) (i : Option String) (ch m : Option Int) (o : Order),
      (orders.map Order.id).Nodup → o ∈ orders → o.status = .accepted →
      ∃ o', (telegram_webhook env
          (.callback { id := i, data := "way" ++ ":" ++ natStr o.id,
                       chat_id := ch, message_id := m }) orders).orders
          = saveOrder orders o' ∧ o'.id = o.id ∧ o'.status = .in_progress) ∧
    (∀ (env : Env) (orders : List Order) (i : Option String) (ch m : Option Int) (o : Order),
      (orders.map Order.id).Nodup → o ∈ orders → o.status = .in_progress →
      ∃ o', (telegram_webhook env
          (.callback { id := i, data := "deliver" ++ ":" ++ natStr o.id,
                       chat_id := ch, message_id := m }) orders).orders
          = saveOrder orders o' ∧ o'.id = o.id ∧ o'.status = .delivered) ∧
    (∀ (env : Env) (inb : Inbound) (orders : List Order),
      (telegram_webhook env inb orders).orders = orders ∨
      ∃ o, o ∈ orders ∧ ∃ a o' st cm, applyAction a o = some (o', st, cm) ∧
        ((o.status = .new ∧ o'.status = .accepted) ∨
         (o.status = .new ∧ o'.status = .cancelled) ∨
         (o.status = .accepted ∧ o'.status = .in_progress) ∨
         (o.status = .in_progress ∧ o'.status = .delivered)) ∧
        (telegram_webhook env inb orders).orders = saveOrder orders o') := by
  refine ⟨?_, ?_, ?_, ?_, ?_, ?_⟩
  · intro a o o' st cm h
    rcases applyAction_edges h with ⟨h1, h2, h3⟩ | ⟨h1, h2, h3⟩ | ⟨h1, h2, h3⟩ | ⟨h1, h2, h3⟩
    · exact Or.inr (Or.inl ⟨h1, h2, h3⟩)
    · exact Or.inl ⟨h1, h2, h3⟩
    · exact Or.inr (Or.inr (Or.inl ⟨h1, h2, h3⟩))
    · exact Or.inr (Or.inr (Or.inr ⟨h1, h2, h3⟩))
  · intro env orders i ch m o hnd ho hs
    have hterm : ¬ (o.status = .cancelled ∨ o.status = .delivered) := by rw [hs]; decide
    refine ⟨{ o with
                status := .accepted,
                admin_comment := (if o.admin_comment = "" then "Оплата подтверждена"
                  else o.admin_comment) }, ?_, rfl, rfl⟩
    rw [webhook_button_press env orders i ch m o _ "accept" _ _ hnd ho hterm (by decide)
      (applyAction_accept o hs)]
  · intro env orders i ch m o hnd ho hs
    have hterm : ¬ (o.status = .cancelled ∨ o.status = .delivered) := by rw [hs]; decide
    refine ⟨{ o with
                status := .cancelled,
                admin_comment := (if o.admin_comment = "" then "Оплата отклонена"
                  else o.admin_comment) }, ?_, rfl, rfl⟩
    rw [webhook_button_press env orders i ch m o _ "cancel" _ _ hnd ho hterm (by decide)
      (applyAction_cancel o hs)]
  · intro env orders i ch m o hnd ho hs
    have hterm : ¬ (o.status = .cancelled ∨ o.status = .delivered) := by rw [hs]; decide
    refine ⟨{ o with status := .in_progress }, ?_, rfl, rfl⟩
    rw [webhook_button_press env orders i ch m o _ "way" _ _ hnd ho hterm (by decide)
      (applyAction_way o hs)]
  · intro env orders i ch m o hnd ho hs
    have hterm : ¬ (o.status = .cancelled ∨ o.status = .delivered) := by rw [hs]; decide
    refine ⟨{ o with status := .delivered }, ?_, rfl, rfl⟩
    rw [webhook_button_press env orders i ch m o _ "deliver" _ _ hnd ho hterm (by decide)
      (applyAction_deliver o hs)]
  · intro env inb orders
    rcases webhook_orders_shape env inb orders with h | ⟨o, ho, a, o', st, cm, happ, heq⟩
    · exact Or.inl h
    · refine Or.inr ⟨o, ho, a, o', st, cm, happ, ?_, heq⟩
      rcases applyAction_edges happ with ⟨-, h2, h3⟩ | ⟨-, h2, h3⟩ | ⟨-, h2, h3⟩ | ⟨-, h2, h3⟩
      · exact Or.inr (Or.inl ⟨h2, h3⟩)
      · exact Or.inl ⟨h2, h3⟩
      · exact Or.inr (Or.inr (Or.inl ⟨h2, h3⟩))
      · exact Or.inr (Or.inr (Or.inr ⟨h2, h3⟩))

/-- C1 witness: pressing approve on the sample `new` order concretely yields
`accepted`. -/
theorem webhook_transitions_witness :
    ∃ o', (telegram_webhook sampleEnv
        (.callback { id := some "cbid", data := "accept" ++ ":" ++ natStr sampleOrder.id,
                     chat_id := some 1, message_id := some 2 }) [sampleOrder]).orders
        = saveOrder [sampleOrder] o' ∧ o'.id = sampleOrder.id ∧ o'.status = .accepted :=
  webhook_transitions_exactly_legal_edges.2.1 sampleEnv [sampleOrder] (some "cbid") (some 1)
    (some 2) sampleOrder (by decide) (List.mem_singleton_self sampleOrder) rfl

/-! ### Claim C2 -/

/-- C2: for a callback whose (status, action) pair is not a legal edge —
including a missing order, a terminal order, or an action the chain rejects —
the webhook mutates no order and still answers the callback and returns
`{"ok": true}`. -/
theorem illegal_pairs_no_mutation_ack (env : Env) (cb : CallbackQuery) (orders : List Order)
    (oid : Int) (hcolon : ':' ∈ cb.data.data)
    (hid : pyInt? (splitToken cb.data).2 = some oid) :
    (findOrder orders oid = none →
      telegram_webhook env (.callback cb) orders = ⟨orders, .okTrue, ackEvents cb⟩) ∧
    (∀ o, findOrder orders oid = some o → (o.status = .cancelled ∨ o.status = .delivered) →
      telegram_webhook env (.callback cb) orders = ⟨orders, .okTrue, ackEvents cb⟩) ∧
    (∀ o, findOrder orders oid = some o → applyAction (splitToken cb.data).1 o = none →
      telegram_webhook env (.callback cb) orders = ⟨orders, .okTrue, ackEvents cb⟩) := by
  refine ⟨?_, ?_, ?_⟩
  · intro h3
    rw [webhook_callback]
    exact handleCallback_notFound env cb orders oid hcolon hid h3
  · intro o h3 h4
    rw [webhook_callback]
    exact handleCallback_terminal env cb orders oid o hcolon hid h3 h4
  · intro o h3 h5
    rw [webhook_callback]
    by_cases h4 : o.status = .cancelled ∨ o.status = .delivered
    · exact handleCallback_terminal env cb orders oid o hcolon hid h3 h4
    · exact handleCallback_reject env cb orders oid o hcolon hid h3 h4 h5

/-- C2 witness: an approve press against an already delivered order is a no-op
with an acknowledgment. -/
theorem illegal_pairs_witness :
    telegram_webhook sampleEnv (.callback sampleCb) [sampleDelivered] =
      ⟨[sampleDelivered], .okTrue, ackEvents sampleCb⟩ :=
  ((illegal_pairs_no_mutation_ack sampleEnv sampleCb [sampleDelivered] 7 (by decide)
      (by decide)).2.1) sampleDelivered (by decide) (Or.inr rfl)

/-! ### Claim C3 -/

/-- C3 counterexample: the rendered tokens for a `new` order parse to the action
literals `accept` and `cancel`, neither of which is among the five literals
`submit_receipt`, `approve`, `reject`, `ship`, `deliver` the claim names. -/
theorem token_literals_counterexample :
    ((build_keyboard sampleOrder).flatten.map (fun b => (splitToken b.callback_data).1)).all
      (fun a => decide (a ∈ (["submit_receipt", "approve", "reject", "ship", "deliver"] :
        List String))) = false := by
  have h2 : ((build_keyboard sampleOrder).flatten.map (fun b => (splitToken b.callback_data).1))
      = ["accept", "cancel"] := by
    show [(splitToken ("accept" ++ ":" ++ natStr sampleOrder.id)).1,
          (splitToken ("cancel" ++ ":" ++ natStr sampleOrder.id)).1] = ["accept", "cancel"]
    rw [splitToken_token "accept" _ (by decide), splitToken_token "cancel" _ (by decide)]
  rw [h2]
  decide

/-- C3 (amended): every rendered button token has the format
`<action>:<order_id>` with delimiter `:`, where `<action>` is one of the four
literals `accept`, `cancel`, `way`, `deliver` (receipt upload is a web form,
not a button), and the webhook dispatcher splits exactly that format back into
the action and the integer order id. -/
theorem token_format_roundtrip (o : Order) (row : List Button) (b : Button)
    (hrow : row ∈ build_keyboard o) (hb : b ∈ row) :
    ∃ a, a ∈ (["accept", "cancel", "way", "deliver"] : List String) ∧
      b.callback_data = a ++ ":" ++ natStr o.id ∧
      splitToken b.callback_data = (a, natStr o.id) ∧
      pyInt? (natStr o.id) = some (o.id : Int) := by
  unfold build_keyboard at hrow
  by_cases h1 : o.status = .new
  · rw [if_pos h1, List.mem_singleton] at hrow
    subst hrow
    rcases List.mem_cons.mp hb with rfl | hb'
    · exact ⟨"accept", by decide, rfl,
        splitToken_token "accept" _ (by decide), pyInt_natStr o.id⟩
    · rw [List.mem_singleton] at hb'
      subst hb'
      exact ⟨"cancel", by decide, rfl,
        splitToken_token "cancel" _ (by decide), pyInt_natStr o.id⟩
  · rw [if_neg h1] at hrow
    by_cases h2 : o.status = .accepted
    · rw [if_pos h2, List.mem_singleton] at hrow
      subst hrow
      rw [List.mem_singleton] at hb
      subst hb
      exact ⟨"way", by decide, rfl, splitToken_token "way" _ (by decide), pyInt_natStr o.id⟩
    · rw [if_neg h2] at hrow
      by_cases h3 : o.status = .in_progress
      · rw [if_pos h3, List.mem_singleton] at hrow
        subst hrow
        rw [List.mem_singleton] at hb
        subst hb
        exact ⟨"deliver", by decide, rfl, splitToken_token "deliver" _ (by decide),
          pyInt_natStr o.id⟩
      · rw [if_neg h3] at hrow
        cases hrow

/-- C3 witness: the approve button of the sample order round-trips concretely. -/
theorem token_format_witness :
    ∃ a, a ∈ (["accept", "cancel", "way", "deliver"] : List String) ∧
      approveButton.callback_data = a ++ ":" ++ natStr sampleOrder.id ∧
      splitToken approveButton.callback_data = (a, natStr sampleOrder.id) ∧
      pyInt? (natStr sampleOrder.id) = some (sampleOrder.id : Int) :=
  token_format_roundtrip sampleOrder [approveButton, rejectButton] approveButton
    (List.mem_singleton_self _) (List.mem_cons_self _ _)

/-! ### Claim C4 -/

/-- C4: the inline-action set rendered for an order is a pure function of its
status: `new` yields exactly the two approve/reject buttons (code literals
`accept`/`cancel`), `accepted` exactly the ship button (`way`), `in_progress`
exactly the deliver button (`deliver`), and every other status yields no
actions. -/
theorem keyboard_actions_by_status (o : Order) :
    (o.status = .new →
      build_keyboard o =
        [[{ text := "✅ Подтвердить оплату", callback_data := "accept:" ++ natStr o.id },
          { text := "❌ Отклонить оплату", callback_data := "cancel:" ++ natStr o.id }]] ∧
      ((build_keyboard o).flatten.map (fun b => (splitToken b.callback_data).1)) =
        ["accept", "cancel"]) ∧
    (o.status = .accepted →
      build_keyboard o = [[{ text := "🚚 В пути", callback_data := "way:" ++ natStr o.id }]] ∧
      ((build_keyboard o).flatten.map (fun b => (splitToken b.callback_data).1)) = ["way"]) ∧
    (o.status = .in_progress →
      build_keyboard o = [[{ text := "📦 Доставлен", callback_data := "deliver:" ++ natStr o.id }]] ∧
      ((build_keyboard o).flatten.map (fun b => (splitToken b.callback_data).1)) = ["deliver"]) ∧
    ((o.status = .awaiting_payment ∨ o.status = .delivered ∨ o.status = .cancelled) →
      build_keyboard o = []) := by
  refine ⟨?_, ?_, ?_, ?_⟩
  · intro h
    rw [build_keyboard, if_pos h]
    refine ⟨rfl, ?_⟩
    show [(splitToken ("accept" ++ ":" ++ natStr o.id)).1,
          (splitToken ("cancel" ++ ":" ++ natStr o.id)).1] = ["accept", "cancel"]
    rw [splitToken_token "accept" _ (by decide), splitToken_token "cancel" _ (by decide)]
  · intro h
    have hn : ¬ o.status = .new := by rw [h]; decide
    rw [build_keyboard, if_neg hn, if_pos h]
    refine ⟨rfl, ?_⟩
    show [(splitToken ("way" ++ ":" ++ natStr o.id)).1] = ["way"]
    rw [splitToken_token "way" _ (by decide)]
  · intro h
    have hn : ¬ o.status = .new := by rw [h]; decide
    have ha : ¬ o.status = .accepted := by rw [h]; decide
    rw [build_keyboard, if_neg hn, if_neg ha, if_pos h]
    refine ⟨rfl, ?_⟩
    show [(splitToken ("deliver" ++ ":" ++ natStr o.id)).1] = ["deliver"]
    rw [splitToken_token "deliver" _ (by decide)]
  · intro h
    have hn : ¬ o.status = .new := by rcases h with h | h | h <;> rw [h] <;> decide
    have ha : ¬ o.status = .accepted := by rcases h with h | h | h <;> rw [h] <;> decide
    have hi : ¬ o.status = .in_progress := by rcases h with h | h | h <;> rw [h] <;> decide
    rw [build_keyboard, if_neg hn, if_neg ha, if_neg hi]

/-- C4 witness: the sample order (status `new`) rendered concretely. -/
theorem keyboard_actions_witness :
    build_keyboard sampleOrder =
      [[{ text := "✅ Подтвердить оплату", callback_data := "accept:" ++ natStr sampleOrder.id },
        { text := "❌ Отклонить оплату", callback_data := "cancel:" ++ natStr sampleOrder.id }]] ∧
    ((build_keyboard sampleOrder).flatten.map (fun b => (splitToken b.callback_data).1)) =
      ["accept", "cancel"] :=
  (keyboard_actions_by_status sampleOrder).1 rfl

/-! ### Claim C7 -/

/-- C7: `total_amount` is the sum over line items of the snapshot unit price
times quantity, recomputed from the stored order row; the concrete example
`[(10, 2), (5, 1)]` totals `25`; and changing a catalog entry's live price never
changes any order's total. -/
theorem total_amount_snapshot_sum :
    (∀ o : Order, o.total_amount = (o.items.map (fun it => it.price * (it.quantity : Rat))).sum) ∧
    (∀ (st : Store) (wid : Nat) (p : Int) (oid : Nat),
      (st.updateWatchPrice wid p).orderTotal oid = st.orderTotal oid) ∧
    sampleOrder.total_amount = 25 := by
  refine ⟨fun o => rfl, fun st wid p oid => rfl, ?_⟩
  simp [Order.total_amount, OrderItem.total_price, sampleOrder]
  norm_num

/-! ### Claim C9 -/

/-- C9 counterexample: with credentials configured, a screenshot present and the
`sendPhoto` call failing at the API level (no Python exception), the operator
notification performs the photo send and the plain follow-up text, but no
text-only send carrying the action buttons — there is no fallback. -/
theorem photo_api_failure_no_fallback :
    sampleEnv.sendPhotoApiOk = false ∧ sampleEnv.photoBranchRaises = false ∧
    sampleOrder.payment_screenshot.isSome = true ∧
    (send_telegram_order_notification sampleEnv sampleOrder).any isPhotoSend = true ∧
    (send_telegram_order_notification sampleEnv sampleOrder).all (fun c => !isKbSend c) = true := by
  exact ⟨rfl, rfl, rfl, by decide, by decide⟩

/-- C9 (amended): when no screenshot exists the single text send carries the
buttons; when the photo branch raises a Python exception the fallback text send
carries the buttons; when the photo branch completes, the photo (with buttons)
and a button-less full text are sent and the ignored `sendPhoto` API outcome
never alters the behaviour. -/
theorem notification_fallback_behaviour (env : Env) (o : Order)
    (hc : env.configured = true) :
    (o.payment_screenshot = none →
      send_telegram_order_notification env o = [.sendMessageKb (build_keyboard o)]) ∧
    (o.payment_screenshot.isSome = true → env.photoBranchRaises = true →
      send_telegram_order_notification env o = [.sendMessageKb (build_keyboard o)]) ∧
    (o.payment_screenshot.isSome = true → env.photoBranchRaises = false →
      send_telegram_order_notification env o = [.sendPhoto (build_keyboard o), .sendMessageNoKb]) ∧
    (∀ b : Bool, send_telegram_order_notification { env with sendPhotoApiOk := b } o =
      send_telegram_order_notification env o) := by
  have hc' : ¬ env.configured = false := by rw [hc]; decide
  refine ⟨?_, ?_, ?_, fun b => rfl⟩
  · intro hn
    rw [send_telegram_order_notification, if_neg hc',
      if_neg (by rw [hn]; decide)]
  · intro hs hr
    rw [send_telegram_order_notification, if_neg hc', if_pos hs, if_pos hr]
  · intro hs hr
    rw [send_telegram_order_notification, if_neg hc', if_pos hs,
      if_neg (by rw [hr]; decide)]

/-- C9 witness: the amended behaviour at the sample environment and order. -/
theorem notification_fallback_witness :
    send_telegram_order_notification sampleEnv sampleOrder =
      [.sendPhoto (build_keyboard sampleOrder), .sendMessageNoKb] :=
  (notification_fallback_behaviour sampleEnv sampleOrder rfl).2.2.1 rfl rfl

/-! ### Claim C10 -/

/-- C10: a successful webhook transition changes only `status` and possibly
`admin_comment`; `admin_comment` is never overwritten when non-empty; every
other field is unchanged; and the order table changes only by saving the
mutated row. -/
theorem webhook_mutation_frame :
    (∀ (a : String) (o o' : Order) (st cm : String), applyAction a o = some (o', st, cm) →
      o'.id = o.id ∧ o'.user = o.user ∧ o'.created_at = o.created_at ∧
      o'.location = o.location ∧ o'.latitude = o.latitude ∧ o'.longitude = o.longitude ∧
      o'.phone = o.phone ∧ o'.payment_screenshot = o.payment_screenshot ∧
      o'.uzum_payment_id = o.uzum_payment_id ∧ o'.items = o.items ∧
      (¬ o.admin_comment = "" → o'.admin_comment = o.admin_comment)) ∧
    (∀ (env : Env) (inb : Inbound) (orders : List Order),
      (telegram_webhook env inb orders).orders = orders ∨
      ∃ o, o ∈ orders ∧ ∃ a o' st cm, applyAction a o = some (o', st, cm) ∧
        (telegram_webhook env inb orders).orders = saveOrder orders o') :=
  ⟨fun _a _o _o' _st _cm h => applyAction_frame h,
   fun env inb orders => webhook_orders_shape env inb orders⟩

/-! ### Claim C5 -/

/-- C5 counterexample: a callback token whose id part is not an integer makes
the Django id lookup raise, so the endpoint returns an error response rather
than `{"ok": true}` — though still without mutating any order. -/
theorem webhook_non_numeric_id_error :
    (telegram_webhook sampleEnv
        (.callback { id := some "cbid", data := "accept:abc", chat_id := some 1,
                     message_id := some 2 }) [sampleOrder]).response = .serverError ∧
    (telegram_webhook sampleEnv
        (.callback { id := some "cbid", data := "accept:abc", chat_id := some 1,
                     message_id := some 2 }) [sampleOrder]).orders = [sampleOrder] :=
  ⟨by decide, by decide⟩

/-- C5 (amended): malformed JSON, a non-callback update and a string token
without the `:` delimiter are discarded without exception, mutate nothing and
get `{"ok": true}`.  The endpoint does not, however, complete without raising
for every body: a valid-JSON body of the wrong shape raises out of the view
(before the `answerCallbackQuery` call for a non-dict update, `callback_query`,
`message` or `chat`; after it for a non-string `data` value), and a delimited
token whose order-id part contains an ASCII letter makes the id lookup raise
`ValueError` — every such error response leaves every order unchanged. -/
theorem webhook_malformed_discard (env : Env) (orders : List Order) :
    (telegram_webhook env .badJson orders = ⟨orders, .okTrue, []⟩) ∧
    (telegram_webhook env .noCallback orders = ⟨orders, .okTrue, []⟩) ∧
    (∀ cb : CallbackQuery, cb.data = "" ∨ ':' ∉ cb.data.data →
      telegram_webhook env (.callback cb) orders = ⟨orders, .okTrue, ackEvents cb⟩) ∧
    (telegram_webhook env .badShape orders = ⟨orders, .serverError, []⟩) ∧
    (∀ i : Option String,
      telegram_webhook env (.badData i) orders = ⟨orders, .serverError, ackOf i⟩) ∧
    (∀ cb : CallbackQuery, ':' ∈ cb.data.data →
      hasAsciiLetter (splitToken cb.data).2 = true →
      telegram_webhook env (.callback cb) orders = ⟨orders, .serverError, ackEvents cb⟩) ∧
    (∀ inb : Inbound, (telegram_webhook env inb orders).response = .serverError →
      (telegram_webhook env inb orders).orders = orders) := by
  refine ⟨rfl, rfl, ?_, rfl, fun i => rfl, ?_, ?_⟩
  · intro cb h
    rw [webhook_callback]
    exact handleCallback_guard env cb orders h
  · intro cb h1 h2
    rw [webhook_callback]
    exact handleCallback_badInt env cb orders h1 (pyInt_none_of_letter _ h2)
  · intro inb h
    exact webhook_error_no_mutation env inb orders h

/-- C5 witness: a token without the delimiter is concretely acknowledged and
discarded. -/
theorem webhook_malformed_witness :
    telegram_webhook sampleEnv
        (.callback { id := some "cbid", data := "hello", chat_id := some 1, message_id := some 2 })
        [sampleOrder]
      = ⟨[sampleOrder], .okTrue,
         ackEvents { id := some "cbid", data := "hello", chat_id := some 1,
                     message_id := some 2 }⟩ :=
  (webhook_malformed_discard sampleEnv [sampleOrder]).2.2.1
    { id := some "cbid", data := "hello", chat_id := some 1, message_id := some 2 }
    (Or.inr (by decide))

/-! ### Claim C6 -/

theorem payment_post_notFound (env : Env) (orders : List Order) (uid oid : Nat)
    (file : Option String)
    (h : orders.find? (fun x => decide (x.id = oid ∧ x.user = some uid)) = none) :
    payment_page_post env orders uid oid file = (orders, .notFound, []) := by
  simp only [payment_page_post, h]

theorem payment_post_pastStage (env : Env) (orders : List Order) (uid oid : Nat)
    (file : Option String) (o : Order)
    (h : orders.find? (fun x => decide (x.id = oid ∧ x.user = some uid)) = some o)
    (hp : o.status = .accepted ∨ o.status = .in_progress ∨ o.status = .delivered
      ∨ o.status = .cancelled) :
    payment_page_post env orders uid oid file = (orders, .pastStage, []) := by
  simp only [payment_page_post, h, if_pos hp]

theorem payment_post_alreadyUploaded (env : Env) (orders : List Order) (uid oid : Nat)
    (file : Option String) (o : Order)
    (h : orders.find? (fun x => decide (x.id = oid ∧ x.user = some uid)) = some o)
    (hp : ¬ (o.status = .accepted ∨ o.status = .in_progress ∨ o.status = .delivered
      ∨ o.status = .cancelled))
    (hs : o.payment_screenshot.isSome = true) :
    payment_page_post env orders uid oid file = (orders, .alreadyUploaded, []) := by
  simp only [payment_page_post, h, if_neg hp, if_pos hs]

theorem payment_post_noFile (env : Env) (orders : List Order) (uid oid : Nat) (o : Order)
    (h : orders.find? (fun x => decide (x.id = oid ∧ x.user = some uid)) = some o)
    (hp : ¬ (o.status = .accepted ∨ o.status = .in_progress ∨ o.status = .delivered
      ∨ o.status = .cancelled))
    (hs : ¬ o.payment_screenshot.isSome = true) :
    payment_page_post env orders uid oid none = (orders, .noFile, []) := by
  simp only [payment_page_post, h, if_neg hp, if_neg hs]

theorem payment_post_uploaded (env : Env) (orders : List Order) (uid oid : Nat) (o : Order)
    (f : String)
    (h : orders.find? (fun x => decide (x.id = oid ∧ x.user = some uid)) = some o)
    (hp : ¬ (o.status = .accepted ∨ o.status = .in_progress ∨ o.status = .delivered
      ∨ o.status = .cancelled))
    (hs : ¬ o.payment_screenshot.isSome = true) :
    payment_page_post env orders uid oid (some f) =
      (saveOrder orders { o with payment_screenshot := some f, status := Status.new },
       .uploaded,
       send_telegram_order_notification env
         { o with payment_screenshot := some f, status := Status.new }) := by
  simp only [payment_page_post, h, if_neg hp, if_neg hs]

/-- C6: the receipt upload is rejected without state change whenever a receipt
reference already exists, regardless of status; when it succeeds, the order was
at the payment stage (status `awaiting_payment` or `new`, the statuses the
payment-page guard admits), had no receipt, and is stored with status `new` and
the receipt attached. -/
theorem submit_receipt_guards (env : Env) (orders : List Order) (uid oid : Nat)
    (file : Option String) :
    (∀ o, orders.find? (fun x => decide (x.id = oid ∧ x.user = some uid)) = some o →
      o.payment_screenshot.isSome = true →
        (payment_page_post env orders uid oid file).1 = orders ∧
        ¬ (payment_page_post env orders uid oid file).2.1 = .uploaded) ∧
    ((payment_page_post env orders uid oid file).2.1 = .uploaded →
      ∃ o f, orders.find? (fun x => decide (x.id = oid ∧ x.user = some uid)) = some o ∧
        (o.status = .awaiting_payment ∨ o.status = .new) ∧
        o.payment_screenshot = none ∧ file = some f ∧
        (payment_page_post env orders uid oid file).1 =
          saveOrder orders { o with payment_screenshot := some f, status := Status.new }) := by
  constructor
  · intro o hfind hshot
    by_cases hp : o.status = .accepted ∨ o.status = .in_progress ∨ o.status = .delivered
      ∨ o.status = .cancelled
    · rw [payment_post_pastStage env orders uid oid file o hfind hp]
      exact ⟨rfl, fun hh => PaymentOutcome.noConfusion hh⟩
    · rw [payment_post_alreadyUploaded env orders uid oid file o hfind hp hshot]
      exact ⟨rfl, fun hh => PaymentOutcome.noConfusion hh⟩
  · intro hsucc
    cases hfind : orders.find? (fun x => decide (x.id = oid ∧ x.user = some uid)) with
    | none =>
      rw [payment_post_notFound env orders uid oid file hfind] at hsucc
      exact PaymentOutcome.noConfusion hsucc
    | some o =>
      by_cases hp : o.status = .accepted ∨ o.status = .in_progress ∨ o.status = .delivered
        ∨ o.status = .cancelled
      · rw [payment_post_pastStage env orders uid oid file o hfind hp] at hsucc
        exact PaymentOutcome.noConfusion hsucc
      · by_cases hshot : o.payment_screenshot.isSome = true
        · rw [payment_post_alreadyUploaded env orders uid oid file o hfind hp hshot] at hsucc
          exact PaymentOutcome.noConfusion hsucc
        · cases file with
          | none =>
            rw [payment_post_noFile env orders uid oid o hfind hp hshot] at hsucc
            exact PaymentOutcome.noConfusion hsucc
          | some f =>
            refine ⟨o, f, rfl, status_not_past o.status hp, ?_, rfl, ?_⟩
            · cases hps : o.payment_screenshot with
              | none => rfl
              | some s => rw [hps] at hshot; exact absurd rfl hshot
            · rw [payment_post_uploaded env orders uid oid o f hfind hp hshot]

/-- C6 witness: re-uploading against the sample order (receipt present, status
`new`) is rejected with no state change. -/
theorem submit_receipt_witness :
    (payment_page_post sampleEnv [sampleOrder] 5 7 (some "again.png")).1 = [sampleOrder] ∧
    ¬ (payment_page_post sampleEnv [sampleOrder] 5 7 (some "again.png")).2.1 = .uploaded :=
  (submit_receipt_guards sampleEnv [sampleOrder] 5 7 (some "again.png")).1 sampleOrder
    (by decide) rfl

/-! ### Claim C8 -/

/-- C8 counterexample: on a concrete approve press the customer notification is
sent before the durable write, so the outbound calls do not all come strictly
after the status write. -/
theorem notify_before_save_counterexample :
    outboundAfterSave (telegram_webhook sampleEnv (.callback sampleCb) [sampleOrder]).events
      = false ∧
    (telegram_webhook sampleEnv (.callback sampleCb) [sampleOrder]).events.any isSave = true ∧
    (telegram_webhook sampleEnv (.callback sampleCb) [sampleOrder]).events.any isClientSend
      = true :=
  ⟨by decide, by decide, by decide⟩

/-- C8 (amended): the message edits are performed strictly after the durable
status write on every webhook request, but the customer notification is issued
before the write (between the in-memory mutation and `order.save()`), never
after it. -/
theorem edit_after_save_notify_before (env : Env) (inb : Inbound) (orders : List Order) :
    editsAfterSave (telegram_webhook env inb orders).events = true ∧
    noClientSendAfterSave (telegram_webhook env inb orders).events = true := by
  cases inb with
  | badJson => exact ⟨rfl, rfl⟩
  | badShape => exact ⟨rfl, rfl⟩
  | badData i =>
    exact ⟨editsAfterSave_of_none _
        (fun e he => ⟨(ackOf_flags i e he).1, (ackOf_flags i e he).2.1⟩),
      noClientSendAfterSave_of_noSave _ (fun e he => (ackOf_flags i e he).1)⟩
  | noCallback => exact ⟨rfl, rfl⟩
  | callback cb =>
    rw [webhook_callback]
    rcases handleCallback_shape env cb orders with ⟨resp, heq⟩ | ⟨o, -, o', st, cm, -, -, heq⟩
    · rw [heq]
      constructor
      · exact editsAfterSave_of_none _
          (fun e he => ⟨(ackEvents_flags cb e he).1, (ackEvents_flags cb e he).2.1⟩)
      · exact noClientSendAfterSave_of_noSave _ (fun e he => (ackEvents_flags cb e he).1)
    · rw [heq]
      have hpre : ∀ e ∈ ackEvents cb ++ notify_client_if_possible env o' cm,
          isSave e = false ∧ isEdit e = false := by
        intro e he
        rcases List.mem_append.mp he with hm | hm
        · exact ⟨(ackEvents_flags cb e hm).1, (ackEvents_flags cb e hm).2.1⟩
        · exact notify_flags env o' cm e hm
      constructor
      · rw [List.append_assoc (ackEvents cb ++ notify_client_if_possible env o' cm)
          [Event.save o'] (editCalls env cb o'), editsAfterSave_append _ _ hpre]
        rfl
      · rw [List.append_assoc (ackEvents cb ++ notify_client_if_possible env o' cm)
          [Event.save o'] (editCalls env cb o'),
          noClientSendAfterSave_append _ _ (fun e he => (hpre e he).1)]
        show (editCalls env cb o').all (fun x => !isClientSend x) = true
        rw [List.all_eq_true]
        intro e he
        rw [editCalls_not_client env cb o' e he]
        rfl

/-- C10 witness: the accept transition on an order with a non-empty operator
comment keeps the comment and all frame fields. -/
theorem webhook_mutation_frame_witness :
    noteOrderAccepted.id = noteOrder.id ∧ noteOrderAccepted.user = noteOrder.user ∧
    noteOrderAccepted.created_at = noteOrder.created_at ∧
    noteOrderAccepted.location = noteOrder.location ∧
    noteOrderAccepted.latitude = noteOrder.latitude ∧
    noteOrderAccepted.longitude = noteOrder.longitude ∧
    noteOrderAccepted.phone = noteOrder.phone ∧
    noteOrderAccepted.payment_screenshot = noteOrder.payment_screenshot ∧
    noteOrderAccepted.uzum_payment_id = noteOrder.uzum_payment_id ∧
    noteOrderAccepted.items = noteOrder.items ∧
    (¬ noteOrder.admin_comment = "" → noteOrderAccepted.admin_comment = noteOrder.admin_comment) :=
  webhook_mutation_frame.1 "accept" noteOrder noteOrderAccepted
    "✅ <b>Статус:</b> Оплата подтверждена"
    ("✅ Оплата по заказу №" ++ natStr noteOrder.id ++ " подтверждена. Спасибо!")
    (applyAction_accept noteOrder rfl)

end Catalog
